import Mathlib

/-!
Shallow embedding of the smart-calling-agent front end (four page
components: camelCase Orders list, snake_case Orders list + Index
landing page, OrderDetail, OTP Login) for verification of the
specification's testable properties.

HTTP interactions are modelled by the response a handler observes
(`FetchResult`): `netError` stands for a thrown fetch/parse error,
`reply status body` for a settled response with parsed JSON body.
Each event handler is embedded as a pure function from its inputs and
the observed response to the trace of effects it performs: requests
issued, toasts shown, storage keys removed, navigations, and React
state writes (`Option` fields: `none` means the setter was not called).
-/

/-- JS `Response.ok`: status in the inclusive range 200..299. -/
def jsOk (status : Nat) : Bool := 200 ≤ status && status < 300

/-- Outcome a handler observes from `fetch` + `json()`:
either a thrown network/parse error, or a settled response. -/
inductive FetchResult (α : Type) where
  | netError : FetchResult α
  | reply (status : Nat) (body : α) : FetchResult α
deriving DecidableEq, Repr

/-- A toast notification, identified by its title and variant
("destructive" for error notices, "default" otherwise). -/
structure Toast where
  title : String
  variant : String
deriving DecidableEq, Repr

/-- An HTTP request issued by a handler. The JSON body is recorded as
its list of field/value pairs. -/
structure Request where
  method : String
  url : String
  authHeader : Option String
  body : List (String × String)
deriving DecidableEq, Repr

/-- JS string interpolation of a possibly-null value:
`Bearer null` when the stored token is absent. -/
def jsTemplateOpt (v : Option String) : String :=
  match v with
  | some s => s
  | none => "null"

/-- JS `String.prototype.toLowerCase` (ASCII statuses): lower-case
every character. -/
def jsToLowerCase (s : String) : String :=
  String.mk (s.data.map Char.toLower)

/-- JS `Array.prototype.findIndex`: index of the first element
satisfying `p`, or `-1` when none does. -/
def jsFindIndex {α : Type} (p : α → Bool) : List α → Int
  | [] => -1
  | a :: rest =>
    if p a then 0
    else
      let r := jsFindIndex p rest
      if r = -1 then -1 else r + 1

/-- The three rendering states of an orders-list page body. -/
inductive ListView where
  | loadingView : ListView
  | emptyState (heading : String) : ListView
  | grid : ListView
deriving DecidableEq, Repr

namespace Cam

/-- `Order.status` union type of the camelCase version. -/
inductive OrderStatus where
  | pending | confirmed | shipped | delivered | cancelled
deriving DecidableEq, Repr

/-- camelCase `Order` interface. -/
structure Order where
  id : String
  items : List String
  total : Int
  status : OrderStatus
  createdAt : String
deriving DecidableEq, Repr

/-- Parsed body of `GET /api/orders` as this version reads it
(`data.orders` accessed directly). -/
structure OrdersPayload where
  orders : List Order
deriving DecidableEq, Repr

/-- Effect trace of the camelCase `fetchOrders`. -/
structure FetchOrdersResult where
  setOrders : Option (List Order)
  toasts : List Toast
  removedKeys : List String
  navigations : List String
  loading : Bool
deriving DecidableEq, Repr

/-- camelCase `fetchOrders`: on ok store `data.orders`; any non-ok
status (401 included) throws into the catch, which only toasts. -/
def fetchOrders (resp : FetchResult OrdersPayload) : FetchOrdersResult :=
  match resp with
  | .netError =>
    { setOrders := none, toasts := [⟨"Error", "destructive"⟩],
      removedKeys := [], navigations := [], loading := false }
  | .reply status body =>
    if jsOk status then
      { setOrders := some body.orders, toasts := [],
        removedKeys := [], navigations := [], loading := false }
    else
      { setOrders := none, toasts := [⟨"Error", "destructive"⟩],
        removedKeys := [], navigations := [], loading := false }

/-- camelCase `getStatusColor`: switch on the (typed) status value. -/
def getStatusColor : OrderStatus → String
  | .delivered => "bg-green-500"
  | .shipped => "bg-blue-500"
  | .confirmed => "bg-purple-500"
  | .cancelled => "bg-red-500"
  | .pending => "bg-yellow-500"

/-- Card title of the camelCase list: `Order #` + first 8 chars of the
UUID (`order.id.slice(0, 8)`). -/
def cardTitle (order : Order) : String := "Order #" ++ order.id.take 8

/-- Body of the camelCase list page: loading text, empty-state card, or
the grid of order cards. -/
def ordersView (loading : Bool) (orders : List Order) : ListView :=
  if loading then .loadingView
  else if orders.length = 0 then .emptyState "No orders yet"
  else .grid

end Cam

/-- snake_case `Order` interface, shared by the snake_case Orders list
and the OrderDetail page. -/
structure OrderRec where
  id : String
  phone_number : String
  product_name : String
  quantity : Nat
  total_price : Int
  delivery_address : Option String
  order_status : String
  created_at : String
deriving DecidableEq, Repr

namespace Snake

/-- Parsed body of `GET /api/orders` as this version reads it:
`data.orders || []` tolerates an absent field. -/
structure OrdersPayload where
  orders : Option (List OrderRec)
deriving DecidableEq, Repr

/-- Effect trace of the snake_case `fetchOrders`. -/
structure FetchOrdersResult where
  setOrders : Option (List OrderRec)
  toasts : List Toast
  removedKeys : List String
  navigations : List String
  loading : Bool
deriving DecidableEq, Repr

/-- snake_case `fetchOrders`: ok stores `data.orders || []`; 401 toasts
"Session expired", removes both storage keys and navigates to login;
any other failure toasts a generic error. -/
def fetchOrders (resp : FetchResult OrdersPayload) : FetchOrdersResult :=
  match resp with
  | .netError =>
    { setOrders := none, toasts := [⟨"Error", "destructive"⟩],
      removedKeys := [], navigations := [], loading := false }
  | .reply status body =>
    if jsOk status then
      { setOrders := some (body.orders.getD []), toasts := [],
        removedKeys := [], navigations := [], loading := false }
    else if status = 401 then
      { setOrders := none, toasts := [⟨"Session expired", "destructive"⟩],
        removedKeys := ["authToken", "phoneNumber"],
        navigations := ["/login"], loading := false }
    else
      { setOrders := none, toasts := [⟨"Error", "destructive"⟩],
        removedKeys := [], navigations := [], loading := false }

/-- snake_case `getStatusColor`: switch on `status.toLowerCase()`. -/
def getStatusColor (status : String) : String :=
  if jsToLowerCase status = "delivered" then "bg-green-500"
  else if jsToLowerCase status = "shipped" then "bg-blue-500"
  else if jsToLowerCase status = "confirmed" then "bg-purple-500"
  else if jsToLowerCase status = "cancelled" then "bg-red-500"
  else "bg-yellow-500"

/-- Card titles of the snake_case list:
`orders.map((order, index) => ... Order #{orders.length - index} ...)`. -/
def cardTitles (orders : List OrderRec) : List String :=
  orders.enum.map (fun ie => "Order #" ++ toString (orders.length - ie.1))

/-- Body of the snake_case list page: loading text, empty-state card, or
the grid of order cards. -/
def ordersView (loading : Bool) (orders : List OrderRec) : ListView :=
  if loading then .loadingView
  else if orders.length = 0 then .emptyState "No orders yet"
  else .grid

end Snake

namespace DetailPage

/-- The two persisted session entries in browser local storage. -/
structure Storage where
  authToken : Option String
  phoneNumber : Option String
deriving DecidableEq, Repr

/-- Parsed body of `GET /api/orders/:id` as the detail page reads it
(`data.order`). -/
structure DetailPayload where
  order : OrderRec
deriving DecidableEq, Repr

/-- Effect trace of `fetchOrderDetail`. -/
structure FetchDetailResult where
  setOrder : Option OrderRec
  setOrderNumber : Option Int
  toasts : List Toast
  removedKeys : List String
  navigations : List String
  loading : Bool
deriving DecidableEq, Repr

/-- The catch branch of `fetchOrderDetail`: generic error toast and
navigation back to the orders list. -/
def detailCatch : FetchDetailResult :=
  { setOrder := none, setOrderNumber := none,
    toasts := [⟨"Error", "destructive"⟩],
    removedKeys := [], navigations := ["/orders"], loading := false }

/-- `fetchOrderDetail`: first awaits the full-list fetch, then the
detail fetch (a thrown error in either jumps to the catch). When both
are ok it stores `data.order` and the sequential number
`allOrders.length - allOrders.findIndex(o => o.id === orderId)`;
when the detail response is 401 it clears the session and navigates to
login; otherwise it throws into the catch. -/
def fetchOrderDetail (orderId : String)
    (respAll : FetchResult Snake.OrdersPayload)
    (respDetail : FetchResult DetailPayload) : FetchDetailResult :=
  match respAll with
  | .netError => detailCatch
  | .reply statusAll bodyAll =>
    match respDetail with
    | .netError => detailCatch
    | .reply statusD bodyD =>
      if jsOk statusD && jsOk statusAll then
        let allOrders := bodyAll.orders.getD []
        let orderIndex := jsFindIndex (fun o => o.id == orderId) allOrders
        { setOrder := some bodyD.order,
          setOrderNumber := some ((allOrders.length : Int) - orderIndex),
          toasts := [], removedKeys := [], navigations := [],
          loading := false }
      else if statusD = 401 then
        { setOrder := none, setOrderNumber := none,
          toasts := [⟨"Session expired", "destructive"⟩],
          removedKeys := ["authToken", "phoneNumber"],
          navigations := ["/login"], loading := false }
      else detailCatch

/-- Effect trace of `handleCancelOrder`. -/
structure CancelResult where
  requests : List Request
  toasts : List Toast
  setShowCancelDialog : Option Bool
  setOrder : Option OrderRec
  removedKeys : List String
  navigations : List String
deriving DecidableEq, Repr

/-- `handleCancelOrder`: reads the token from storage (no presence
check) and issues `PATCH /api/orders/:id` with body status "cancelled"
and header `Bearer ${authToken}`. On ok: success toast, close the
dialog, and set the local order to a copy with status "cancelled". On
any failure (non-ok throw, or network error): generic error toast only. -/
def handleCancelOrder (storage : Storage) (orderId : String)
    (order : OrderRec) (resp : FetchResult Unit) : CancelResult :=
  let req : Request :=
    { method := "PATCH", url := "/api/orders/" ++ orderId,
      authHeader := some ("Bearer " ++ jsTemplateOpt storage.authToken),
      body := [("status", "cancelled")] }
  match resp with
  | .netError =>
    { requests := [req], toasts := [⟨"Error", "destructive"⟩],
      setShowCancelDialog := none, setOrder := none,
      removedKeys := [], navigations := [] }
  | .reply status _ =>
    if jsOk status then
      { requests := [req], toasts := [⟨"Order cancelled", "default"⟩],
        setShowCancelDialog := some false,
        setOrder := some { order with order_status := "cancelled" },
        removedKeys := [], navigations := [] }
    else
      { requests := [req], toasts := [⟨"Error", "destructive"⟩],
        setShowCancelDialog := none, setOrder := none,
        removedKeys := [], navigations := [] }

/-- OrderDetail `getStatusColor`: switch on `status.toLowerCase()`
(textually identical to the snake_case list's copy). -/
def getStatusColor (status : String) : String :=
  if jsToLowerCase status = "delivered" then "bg-green-500"
  else if jsToLowerCase status = "shipped" then "bg-blue-500"
  else if jsToLowerCase status = "confirmed" then "bg-purple-500"
  else if jsToLowerCase status = "cancelled" then "bg-red-500"
  else "bg-yellow-500"

/-- `canCancel`: optional chaining on the possibly-null order;
`undefined === "confirmed"` is false when the order is null. -/
def canCancel (order : Option OrderRec) : Bool :=
  match order with
  | none => false
  | some o => jsToLowerCase o.order_status == "confirmed"

/-- The rendering states of the detail page: loading text, the
"Order not found" screen, or the order card (whose boolean records
whether the Cancel Order button is rendered). -/
inductive DetailView where
  | loadingView : DetailView
  | notFound : DetailView
  | page (showCancelButton : Bool) : DetailView
deriving DecidableEq, Repr

/-- Page body of OrderDetail: the Cancel Order button block is rendered
exactly when `canCancel` holds. -/
def renderDetail (loading : Bool) (order : Option OrderRec) : DetailView :=
  if loading then .loadingView
  else
    match order with
    | none => .notFound
    | some _ => .page (canCancel order)

end DetailPage

namespace LoginPage

/-- `value.replace(/\D/g, '')`: keep only decimal digits. -/
def stripNonDigits (s : String) : String :=
  String.mk (s.data.filter Char.isDigit)

/-- Every character of the string is a decimal digit. -/
def digitsOnly (s : String) : Bool := s.data.all Char.isDigit

/-- React state of the OTP login page. -/
structure LoginState where
  phoneNumber : String
  otp : String
  otpSent : Bool
deriving DecidableEq, Repr

/-- User input events on the login page: a change event on the phone
input, a change event on the OTP input, or the Resend OTP button. -/
inductive LoginEvent where
  | phoneInput (raw : String) : LoginEvent
  | otpInput (raw : String) : LoginEvent
  | resendOtp : LoginEvent
deriving DecidableEq, Repr

/-- Initial `useState` values. -/
def initialState : LoginState :=
  { phoneNumber := "", otp := "", otpSent := false }

/-- The change handlers store the raw input value with non-digits
stripped; `handleResendOtp` resets the OTP and returns to the phone
step. -/
def step (s : LoginState) : LoginEvent → LoginState
  | .phoneInput raw => { s with phoneNumber := stripNonDigits raw }
  | .otpInput raw => { s with otp := stripNonDigits raw }
  | .resendOtp => { s with otp := "", otpSent := false }

/-- State after a sequence of user input events from the initial state. -/
def runEvents (events : List LoginEvent) : LoginState :=
  events.foldl step initialState

/-- DOM `maxLength` enforcement: the phone input delivers values of at
most 10 characters, the OTP input at most 6. -/
def eventWithinMaxLength : LoginEvent → Bool
  | .phoneInput raw => raw.length ≤ 10
  | .otpInput raw => raw.length ≤ 6
  | .resendOtp => true

/-- Parsed body of the OTP endpoints:
`\x7bsuccess, otp?, token?, phoneNumber?, error?\x7d`. -/
structure OtpPayload where
  success : Bool
  token : Option String
  phoneNumber : Option String
deriving DecidableEq, Repr

/-- Effect trace of `handleSendOtp`. -/
structure SendOtpResult where
  requests : List Request
  toasts : List Toast
  setOtpSent : Option Bool
deriving DecidableEq, Repr

/-- `handleSendOtp`: guard `!phoneNumber || phoneNumber.length < 10`
toasts and returns before any fetch; otherwise POST to
`/api/auth/send-otp`, then toast success (setting `otpSent`) or error. -/
def handleSendOtp (phoneNumber : String)
    (resp : FetchResult OtpPayload) : SendOtpResult :=
  if phoneNumber = "" ∨ phoneNumber.length < 10 then
    { requests := [],
      toasts := [⟨"Invalid phone number", "destructive"⟩],
      setOtpSent := none }
  else
    let req : Request :=
      { method := "POST", url := "/api/auth/send-otp",
        authHeader := none, body := [("phoneNumber", phoneNumber)] }
    match resp with
    | .netError =>
      { requests := [req], toasts := [⟨"Error", "destructive"⟩],
        setOtpSent := none }
    | .reply status body =>
      if jsOk status && body.success then
        { requests := [req], toasts := [⟨"OTP Sent", "default"⟩],
          setOtpSent := some true }
      else
        { requests := [req], toasts := [⟨"Error", "destructive"⟩],
          setOtpSent := none }

/-- Effect trace of `handleVerifyOtp`. -/
structure VerifyOtpResult where
  requests : List Request
  toasts : List Toast
  setItems : List (String × String)
  navigations : List String
deriving DecidableEq, Repr

/-- `handleVerifyOtp`: guard `!otp || otp.length !== 6` toasts and
returns before any fetch; otherwise POST to `/api/auth/verify-otp`,
then on ok+success persist the session and navigate to orders, else
toast an error. -/
def handleVerifyOtp (phoneNumber otp : String)
    (resp : FetchResult OtpPayload) : VerifyOtpResult :=
  if otp = "" ∨ otp.length ≠ 6 then
    { requests := [], toasts := [⟨"Invalid OTP", "destructive"⟩],
      setItems := [], navigations := [] }
  else
    let req : Request :=
      { method := "POST", url := "/api/auth/verify-otp",
        authHeader := none,
        body := [("phoneNumber", phoneNumber), ("otp", otp)] }
    match resp with
    | .netError =>
      { requests := [req], toasts := [⟨"Error", "destructive"⟩],
        setItems := [], navigations := [] }
    | .reply status body =>
      if jsOk status && body.success then
        { requests := [req],
          toasts := [⟨"Login successful", "default"⟩],
          setItems :=
            [("authToken", body.token.getD ""),
             ("phoneNumber", body.phoneNumber.getD "")],
          navigations := ["/orders"] }
      else
        { requests := [req], toasts := [⟨"Error", "destructive"⟩],
          setItems := [], navigations := [] }

end LoginPage

namespace IndexPage

/-- Effect trace of `handleRequestCall`. -/
structure RequestCallResult where
  requests : List Request
  toasts : List Toast
deriving DecidableEq, Repr

/-- `handleRequestCall` on the landing page: guard
`!phoneNumber || phoneNumber.length < 10` toasts and returns before any
fetch; otherwise POST to `/make_call`, then toast success or error. -/
def handleRequestCall (phoneNumber : String)
    (resp : FetchResult Unit) : RequestCallResult :=
  if phoneNumber = "" ∨ phoneNumber.length < 10 then
    { requests := [],
      toasts := [⟨"Invalid phone number", "destructive"⟩] }
  else
    let req : Request :=
      { method := "POST", url := "/make_call",
        authHeader := none, body := [("phone_number", phoneNumber)] }
    match resp with
    | .netError =>
      { requests := [req], toasts := [⟨"Error", "destructive"⟩] }
    | .reply status _ =>
      if jsOk status then
        { requests := [req], toasts := [⟨"Success!", "default"⟩] }
      else
        { requests := [req], toasts := [⟨"Error", "destructive"⟩] }

end IndexPage

/-- A concrete snake_case order used to evaluate the handlers. -/
def sampleOrder : OrderRec :=
  { id := "abc-123", phone_number := "9876543210",
    product_name := "Notebook", quantity := 2, total_price := 240,
    delivery_address := some "Hostel Block A", order_status := "confirmed",
    created_at := "2024-01-01T10:00:00Z" }

/-- A second concrete order with a different id. -/
def sampleOrder2 : OrderRec :=
  { id := "def-456", phone_number := "9876543210",
    product_name := "Pen", quantity := 1, total_price := 20,
    delivery_address := none, order_status := "delivered",
    created_at := "2024-01-02T10:00:00Z" }

/-- A storage state holding a session. -/
def sampleStorage : DetailPage.Storage :=
  { authToken := some "tok-1", phoneNumber := some "9876543210" }

/-- Claim C2: on the order-detail page, the Cancel action is rendered
if and only if the lowercased order_status of the displayed order
equals "confirmed". -/
theorem c2_cancel_button_iff_confirmed (od : OrderRec) :
    DetailPage.renderDetail false (some od)
      = DetailPage.DetailView.page true
      ↔ jsToLowerCase od.order_status = "confirmed" := by
  simp [DetailPage.renderDetail, DetailPage.canCancel]

/-- Claim C3 counterexample: the input "DELIVERED" differs from all
four keyed strings, so the claim requires the fallback yellow, but the
OrderDetail occurrence of getStatusColor (which compares the lowercased
input) returns green. -/
theorem c3_counterexample :
    ("DELIVERED" ≠ "delivered" ∧ "DELIVERED" ≠ "shipped" ∧
     "DELIVERED" ≠ "confirmed" ∧ "DELIVERED" ≠ "cancelled") ∧
    DetailPage.getStatusColor "DELIVERED" ≠ "bg-yellow-500" ∧
    DetailPage.getStatusColor "DELIVERED" = "bg-green-500" := by
  decide

/-- Claim C3 as amended: the two string-typed occurrences of
getStatusColor are the same pure function and key on the lowercased
input (green iff it lowercases to "delivered", blue iff "shipped",
purple iff "confirmed", red iff "cancelled", yellow exactly otherwise);
the camelCase occurrence maps its status enum to the documented colors,
with pending going to the yellow fallback. -/
theorem c3_status_color_mapping (s : String) :
    DetailPage.getStatusColor s = Snake.getStatusColor s ∧
    (DetailPage.getStatusColor s = "bg-green-500" ↔
      jsToLowerCase s = "delivered") ∧
    (DetailPage.getStatusColor s = "bg-blue-500" ↔
      jsToLowerCase s = "shipped") ∧
    (DetailPage.getStatusColor s = "bg-purple-500" ↔
      jsToLowerCase s = "confirmed") ∧
    (DetailPage.getStatusColor s = "bg-red-500" ↔
      jsToLowerCase s = "cancelled") ∧
    (DetailPage.getStatusColor s = "bg-yellow-500" ↔
      ¬ (jsToLowerCase s = "delivered" ∨ jsToLowerCase s = "shipped" ∨
         jsToLowerCase s = "confirmed" ∨ jsToLowerCase s = "cancelled")) ∧
    Cam.getStatusColor .delivered = "bg-green-500" ∧
    Cam.getStatusColor .shipped = "bg-blue-500" ∧
    Cam.getStatusColor .confirmed = "bg-purple-500" ∧
    Cam.getStatusColor .cancelled = "bg-red-500" ∧
    Cam.getStatusColor .pending = "bg-yellow-500" := by
  refine ⟨rfl, ?_, ?_, ?_, ?_, ?_, rfl, rfl, rfl, rfl, rfl⟩ <;>
    · unfold DetailPage.getStatusColor
      split_ifs <;> simp_all

/-- Claim C10: handleCancelOrder performs no session-presence check:
with no token in storage it still issues exactly the PATCH request,
whose Authorization header is the literal "Bearer null", and in no
branch does it remove a storage key or navigate. -/
theorem c10_cancel_without_token (phone : Option String) (oid : String)
    (order : OrderRec) (resp : FetchResult Unit) :
    (DetailPage.handleCancelOrder ⟨none, phone⟩ oid order resp).requests
      = [{ method := "PATCH", url := "/api/orders/" ++ oid,
           authHeader := some "Bearer null",
           body := [("status", "cancelled")] }] ∧
    (DetailPage.handleCancelOrder ⟨none, phone⟩ oid order resp).removedKeys
      = [] ∧
    (DetailPage.handleCancelOrder ⟨none, phone⟩ oid order resp).navigations
      = [] := by
  cases resp with
  | netError => exact ⟨rfl, rfl, rfl⟩
  | reply status body =>
    simp only [DetailPage.handleCancelOrder]
    split <;> exact ⟨rfl, rfl, rfl⟩

/-- Claim C1 counterexample: a 401 on the cancel mutation does not
remove the session entries and does not navigate to login (it falls
into the generic error branch). -/
theorem c1_counterexample :
    ¬ ("authToken" ∈ (DetailPage.handleCancelOrder sampleStorage
          "abc-123" sampleOrder (.reply 401 ())).removedKeys ∧
       "phoneNumber" ∈ (DetailPage.handleCancelOrder sampleStorage
          "abc-123" sampleOrder (.reply 401 ())).removedKeys ∧
       "/login" ∈ (DetailPage.handleCancelOrder sampleStorage
          "abc-123" sampleOrder (.reply 401 ())).navigations) := by
  decide

/-- Claim C1 as amended: a 401 clears both persisted session entries
and navigates to login on the snake_case order-list fetch and on the
order-detail fetch (for any settled list response), but the camelCase
order-list fetch and the cancel mutation treat 401 as a generic
failure: an error toast only, with no storage removal and no
navigation. -/
theorem c1_amended_401_behavior (body1 : Snake.OrdersPayload)
    (body0 : Cam.OrdersPayload) (statusAll : Nat)
    (bodyAll : Snake.OrdersPayload) (bodyD : DetailPage.DetailPayload)
    (oid : String) (storage : DetailPage.Storage) (order : OrderRec) :
    ((Snake.fetchOrders (.reply 401 body1)).removedKeys
        = ["authToken", "phoneNumber"] ∧
     (Snake.fetchOrders (.reply 401 body1)).navigations = ["/login"]) ∧
    ((DetailPage.fetchOrderDetail oid (.reply statusAll bodyAll)
        (.reply 401 bodyD)).removedKeys = ["authToken", "phoneNumber"] ∧
     (DetailPage.fetchOrderDetail oid (.reply statusAll bodyAll)
        (.reply 401 bodyD)).navigations = ["/login"]) ∧
    ((Cam.fetchOrders (.reply 401 body0)).removedKeys = [] ∧
     (Cam.fetchOrders (.reply 401 body0)).navigations = [] ∧
     (Cam.fetchOrders (.reply 401 body0)).toasts
        = [⟨"Error", "destructive"⟩]) ∧
    ((DetailPage.handleCancelOrder storage oid order
        (.reply 401 ())).removedKeys = [] ∧
     (DetailPage.handleCancelOrder storage oid order
        (.reply 401 ())).navigations = [] ∧
     (DetailPage.handleCancelOrder storage oid order
        (.reply 401 ())).toasts = [⟨"Error", "destructive"⟩]) := by
  have h401 : jsOk 401 = false := rfl
  refine ⟨⟨?_, ?_⟩, ⟨?_, ?_⟩, ⟨?_, ?_, ?_⟩, ⟨?_, ?_, ?_⟩⟩ <;>
    simp [Snake.fetchOrders, Cam.fetchOrders, DetailPage.fetchOrderDetail,
      DetailPage.handleCancelOrder, h401]

/-- Claim C4: when the cancel mutation receives a 2xx response, the
local order is set to a copy whose order_status is "cancelled" with
every other field unchanged, and the only request issued is the single
PATCH (no follow-up fetch). -/
theorem c4_cancel_success_optimistic (storage : DetailPage.Storage)
    (oid : String) (order : OrderRec) (status : Nat)
    (h : jsOk status = true) :
    (DetailPage.handleCancelOrder storage oid order
        (.reply status ())).setOrder
      = some { id := order.id, phone_number := order.phone_number,
               product_name := order.product_name,
               quantity := order.quantity,
               total_price := order.total_price,
               delivery_address := order.delivery_address,
               order_status := "cancelled",
               created_at := order.created_at } ∧
    (DetailPage.handleCancelOrder storage oid order
        (.reply status ())).requests.length = 1 ∧
    (∀ q ∈ (DetailPage.handleCancelOrder storage oid order
        (.reply status ())).requests, q.method = "PATCH") := by
  simp [DetailPage.handleCancelOrder, h]

/-- Claim C4 witness: a concrete 200 response on the cancel of the
sample order. -/
theorem c4_witness :
    jsOk 200 = true ∧
    ((DetailPage.handleCancelOrder sampleStorage "abc-123" sampleOrder
        (.reply 200 ())).setOrder
      = some { id := sampleOrder.id,
               phone_number := sampleOrder.phone_number,
               product_name := sampleOrder.product_name,
               quantity := sampleOrder.quantity,
               total_price := sampleOrder.total_price,
               delivery_address := sampleOrder.delivery_address,
               order_status := "cancelled",
               created_at := sampleOrder.created_at } ∧
     (DetailPage.handleCancelOrder sampleStorage "abc-123" sampleOrder
        (.reply 200 ())).requests.length = 1 ∧
     (∀ q ∈ (DetailPage.handleCancelOrder sampleStorage "abc-123"
        sampleOrder (.reply 200 ())).requests, q.method = "PATCH")) :=
  ⟨by decide,
   c4_cancel_success_optimistic sampleStorage "abc-123" sampleOrder 200
     (by decide)⟩

/-- Claim C5: when the cancel mutation fails (network/parse error or
any non-2xx response), the handler shows the error toast, does not
write the order state, and does not close the dialog, so the displayed
order is exactly what it was before the attempt. -/
theorem c5_cancel_failure_atomic (storage : DetailPage.Storage)
    (oid : String) (order : OrderRec) (resp : FetchResult Unit)
    (h : ∀ status body, resp = FetchResult.reply status body →
          jsOk status = false) :
    (DetailPage.handleCancelOrder storage oid order resp).setOrder
        = none ∧
    (DetailPage.handleCancelOrder storage oid order
        resp).setShowCancelDialog = none ∧
    (DetailPage.handleCancelOrder storage oid order resp).toasts
        = [⟨"Error", "destructive"⟩] ∧
    (DetailPage.handleCancelOrder storage oid order resp).removedKeys
        = [] ∧
    (DetailPage.handleCancelOrder storage oid order resp).navigations
        = [] := by
  cases resp with
  | netError => exact ⟨rfl, rfl, rfl, rfl, rfl⟩
  | reply status body =>
    have hs : jsOk status = false := h status body rfl
    simp [DetailPage.handleCancelOrder, hs]

/-- Claim C5 witness: a concrete 500 response on the cancel of the
sample order. -/
theorem c5_witness :
    (∀ status body,
        (FetchResult.reply 500 () : FetchResult Unit)
            = FetchResult.reply status body →
          jsOk status = false) ∧
    ((DetailPage.handleCancelOrder sampleStorage "abc-123" sampleOrder
        (.reply 500 ())).setOrder = none ∧
     (DetailPage.handleCancelOrder sampleStorage "abc-123" sampleOrder
        (.reply 500 ())).setShowCancelDialog = none ∧
     (DetailPage.handleCancelOrder sampleStorage "abc-123" sampleOrder
        (.reply 500 ())).toasts = [⟨"Error", "destructive"⟩] ∧
     (DetailPage.handleCancelOrder sampleStorage "abc-123" sampleOrder
        (.reply 500 ())).removedKeys = [] ∧
     (DetailPage.handleCancelOrder sampleStorage "abc-123" sampleOrder
        (.reply 500 ())).navigations = []) :=
  ⟨by intro status body hsb; cases hsb; decide,
   c5_cancel_failure_atomic sampleStorage "abc-123" sampleOrder
     (.reply 500 ())
     (by intro status body hsb; cases hsb; decide)⟩

/-- Claim C7: a successful orders fetch with an empty orders array
stores the empty list and shows no toast, and the list body with
loading finished and no orders renders the "No orders yet" empty-state
prompt — in both versions of the list page. -/
theorem c7_empty_orders_empty_state (status : Nat)
    (h : jsOk status = true) :
    ((Snake.fetchOrders (.reply status ⟨some []⟩)).setOrders = some [] ∧
     (Snake.fetchOrders (.reply status ⟨some []⟩)).toasts = [] ∧
     Snake.ordersView false [] = ListView.emptyState "No orders yet") ∧
    ((Cam.fetchOrders (.reply status ⟨[]⟩)).setOrders = some [] ∧
     (Cam.fetchOrders (.reply status ⟨[]⟩)).toasts = [] ∧
     Cam.ordersView false [] = ListView.emptyState "No orders yet") := by
  simp [Snake.fetchOrders, Cam.fetchOrders, Snake.ordersView,
    Cam.ordersView, h]

/-- Claim C7 witness: a concrete 200 response carrying an empty orders
array. -/
theorem c7_witness :
    jsOk 200 = true ∧
    (((Snake.fetchOrders (.reply 200 ⟨some []⟩)).setOrders = some [] ∧
      (Snake.fetchOrders (.reply 200 ⟨some []⟩)).toasts = [] ∧
      Snake.ordersView false [] = ListView.emptyState "No orders yet") ∧
     ((Cam.fetchOrders (.reply 200 ⟨[]⟩)).setOrders = some [] ∧
      (Cam.fetchOrders (.reply 200 ⟨[]⟩)).toasts = [] ∧
      Cam.ordersView false [] = ListView.emptyState "No orders yet")) :=
  ⟨by decide, c7_empty_orders_empty_state 200 (by decide)⟩

/-- Claim C8: with a malformed phone number (empty or shorter than 10
characters) neither handleSendOtp nor handleRequestCall issues any
request, and with a malformed OTP (empty or not exactly 6 characters)
handleVerifyOtp issues none; each shows its validation toast instead,
whatever response the network would have given. -/
theorem c8_validation_before_network (phone phoneV otp : String)
    (r1 r2 : FetchResult LoginPage.OtpPayload) (r3 : FetchResult Unit)
    (hphone : phone = "" ∨ phone.length < 10)
    (hotp : otp = "" ∨ otp.length ≠ 6) :
    ((LoginPage.handleSendOtp phone r1).requests = [] ∧
     (LoginPage.handleSendOtp phone r1).toasts
        = [⟨"Invalid phone number", "destructive"⟩]) ∧
    ((LoginPage.handleVerifyOtp phoneV otp r2).requests = [] ∧
     (LoginPage.handleVerifyOtp phoneV otp r2).toasts
        = [⟨"Invalid OTP", "destructive"⟩]) ∧
    ((IndexPage.handleRequestCall phone r3).requests = [] ∧
     (IndexPage.handleRequestCall phone r3).toasts
        = [⟨"Invalid phone number", "destructive"⟩]) := by
  unfold LoginPage.handleSendOtp LoginPage.handleVerifyOtp
    IndexPage.handleRequestCall
  rw [if_pos hphone, if_pos hotp, if_pos hphone]
  exact ⟨⟨rfl, rfl⟩, ⟨rfl, rfl⟩, ⟨rfl, rfl⟩⟩

/-- Claim C8 witness: a 9-character phone number and a 3-character OTP
are rejected with no request issued. -/
theorem c8_witness :
    (("123456789" : String) = "" ∨ ("123456789" : String).length < 10) ∧
    (("123" : String) = "" ∨ ("123" : String).length ≠ 6) ∧
    (((LoginPage.handleSendOtp "123456789" .netError).requests = [] ∧
      (LoginPage.handleSendOtp "123456789" .netError).toasts
         = [⟨"Invalid phone number", "destructive"⟩]) ∧
     ((LoginPage.handleVerifyOtp "9876543210" "123" .netError).requests
         = [] ∧
      (LoginPage.handleVerifyOtp "9876543210" "123" .netError).toasts
         = [⟨"Invalid OTP", "destructive"⟩]) ∧
     ((IndexPage.handleRequestCall "123456789" .netError).requests
         = [] ∧
      (IndexPage.handleRequestCall "123456789" .netError).toasts
         = [⟨"Invalid phone number", "destructive"⟩])) :=
  ⟨by decide, by decide,
   c8_validation_before_network "123456789" "9876543210" "123"
     .netError .netError .netError (by decide) (by decide)⟩

/-- The stripped value of an input change contains only digits. -/
theorem stripNonDigits_digitsOnly (s : String) :
    LoginPage.digitsOnly (LoginPage.stripNonDigits s) = true := by
  apply List.all_eq_true.mpr
  intro c hc
  exact (List.mem_filter.mp hc).2

/-- Stripping non-digits never lengthens a string. -/
theorem stripNonDigits_length_le (s : String) :
    (LoginPage.stripNonDigits s).length ≤ s.length :=
  List.length_filter_le _ _

/-- One login event preserves the digits-and-caps invariant, given the
DOM maxLength bound on the raw value. -/
theorem loginStep_preserves (s : LoginPage.LoginState)
    (e : LoginPage.LoginEvent)
    (hs : LoginPage.digitsOnly s.phoneNumber = true ∧
          s.phoneNumber.length ≤ 10 ∧
          LoginPage.digitsOnly s.otp = true ∧ s.otp.length ≤ 6)
    (he : LoginPage.eventWithinMaxLength e = true) :
    LoginPage.digitsOnly (LoginPage.step s e).phoneNumber = true ∧
    (LoginPage.step s e).phoneNumber.length ≤ 10 ∧
    LoginPage.digitsOnly (LoginPage.step s e).otp = true ∧
    (LoginPage.step s e).otp.length ≤ 6 := by
  cases e with
  | phoneInput raw =>
    refine ⟨stripNonDigits_digitsOnly raw, ?_, hs.2.2.1, hs.2.2.2⟩
    have hr : raw.length ≤ 10 := by
      simpa [LoginPage.eventWithinMaxLength] using he
    exact le_trans (stripNonDigits_length_le raw) hr
  | otpInput raw =>
    refine ⟨hs.1, hs.2.1, stripNonDigits_digitsOnly raw, ?_⟩
    have hr : raw.length ≤ 6 := by
      simpa [LoginPage.eventWithinMaxLength] using he
    exact le_trans (stripNonDigits_length_le raw) hr
  | resendOtp =>
    exact ⟨hs.1, hs.2.1, rfl, Nat.zero_le 6⟩

/-- Folding any sequence of bounded login events preserves the
invariant. -/
theorem loginFold_preserves (events : List LoginPage.LoginEvent)
    (s : LoginPage.LoginState)
    (hs : LoginPage.digitsOnly s.phoneNumber = true ∧
          s.phoneNumber.length ≤ 10 ∧
          LoginPage.digitsOnly s.otp = true ∧ s.otp.length ≤ 6)
    (he : ∀ e ∈ events, LoginPage.eventWithinMaxLength e = true) :
    LoginPage.digitsOnly
        (events.foldl LoginPage.step s).phoneNumber = true ∧
    (events.foldl LoginPage.step s).phoneNumber.length ≤ 10 ∧
    LoginPage.digitsOnly (events.foldl LoginPage.step s).otp = true ∧
    (events.foldl LoginPage.step s).otp.length ≤ 6 := by
  induction events generalizing s with
  | nil => exact hs
  | cons e rest ih =>
    exact ih (LoginPage.step s e)
      (loginStep_preserves s e hs (he e (by simp)))
      (fun x hx => he x (by simp [hx]))

/-- Claim C9: after any sequence of user input events (with the DOM
maxLength bounds of 10 and 6 on the raw values the inputs deliver),
the phoneNumber and otp state strings contain only decimal digits,
with phoneNumber at most 10 characters and otp at most 6. -/
theorem c9_login_digits_invariant (events : List LoginPage.LoginEvent)
    (h : ∀ e ∈ events, LoginPage.eventWithinMaxLength e = true) :
    LoginPage.digitsOnly
        (LoginPage.runEvents events).phoneNumber = true ∧
    (LoginPage.runEvents events).phoneNumber.length ≤ 10 ∧
    LoginPage.digitsOnly (LoginPage.runEvents events).otp = true ∧
    (LoginPage.runEvents events).otp.length ≤ 6 :=
  loginFold_preserves events LoginPage.initialState
    ⟨rfl, by decide, rfl, by decide⟩ h

/-- Claim C9 witness: a concrete event sequence with mixed input,
including non-digit characters. -/
theorem c9_witness :
    (∀ e ∈ ([LoginPage.LoginEvent.phoneInput "98a7x-431",
             LoginPage.LoginEvent.otpInput "1b2c3",
             LoginPage.LoginEvent.resendOtp,
             LoginPage.LoginEvent.otpInput "42-137"] :
        List LoginPage.LoginEvent),
      LoginPage.eventWithinMaxLength e = true) ∧
    (LoginPage.digitsOnly
        (LoginPage.runEvents
          [LoginPage.LoginEvent.phoneInput "98a7x-431",
           LoginPage.LoginEvent.otpInput "1b2c3",
           LoginPage.LoginEvent.resendOtp,
           LoginPage.LoginEvent.otpInput "42-137"]).phoneNumber = true ∧
     (LoginPage.runEvents
          [LoginPage.LoginEvent.phoneInput "98a7x-431",
           LoginPage.LoginEvent.otpInput "1b2c3",
           LoginPage.LoginEvent.resendOtp,
           LoginPage.LoginEvent.otpInput "42-137"]).phoneNumber.length
        ≤ 10 ∧
     LoginPage.digitsOnly
        (LoginPage.runEvents
          [LoginPage.LoginEvent.phoneInput "98a7x-431",
           LoginPage.LoginEvent.otpInput "1b2c3",
           LoginPage.LoginEvent.resendOtp,
           LoginPage.LoginEvent.otpInput "42-137"]).otp = true ∧
     (LoginPage.runEvents
          [LoginPage.LoginEvent.phoneInput "98a7x-431",
           LoginPage.LoginEvent.otpInput "1b2c3",
           LoginPage.LoginEvent.resendOtp,
           LoginPage.LoginEvent.otpInput "42-137"]).otp.length ≤ 6) :=
  ⟨by decide,
   c9_login_digits_invariant
     [LoginPage.LoginEvent.phoneInput "98a7x-431",
      LoginPage.LoginEvent.otpInput "1b2c3",
      LoginPage.LoginEvent.resendOtp,
      LoginPage.LoginEvent.otpInput "42-137"] (by decide)⟩

/-- JS findIndex returns the position of the first match: on
`pre ++ a :: post` with no match in `pre` and `a` matching, it returns
`pre.length`. -/
theorem jsFindIndex_first {α : Type} (p : α → Bool) (pre post : List α)
    (a : α) (hpre : ∀ x ∈ pre, p x = false) (ha : p a = true) :
    jsFindIndex p (pre ++ a :: post) = (pre.length : Int) := by
  induction pre with
  | nil => simp [jsFindIndex, ha]
  | cons b rest ih =>
    have hb : p b = false := hpre b (by simp)
    have h := ih (fun x hx => hpre x (by simp [hx]))
    simp only [List.cons_append, jsFindIndex, hb, h]
    norm_num
    omega

/-- Claim C6: for an order whose id first occurs at index `pre.length`
of the fetched list, the detail page stores the sequential number
`allOrders.length - index`, which is exactly the label the snake_case
list renders at that index; the camelCase list instead titles every
card with the first 8 characters of the UUID. -/
theorem c6_sequential_order_number (pre post : List OrderRec)
    (o od : OrderRec) (statusA statusD : Nat)
    (hA : jsOk statusA = true) (hD : jsOk statusD = true)
    (hpre : ∀ x ∈ pre, (x.id == o.id) = false) :
    (DetailPage.fetchOrderDetail o.id
        (.reply statusA ⟨some (pre ++ o :: post)⟩)
        (.reply statusD ⟨od⟩)).setOrderNumber
      = some (((pre ++ o :: post).length : Int) - pre.length) ∧
    (Snake.cardTitles (pre ++ o :: post))[pre.length]?
      = some ("Order #"
          ++ toString ((pre ++ o :: post).length - pre.length)) ∧
    (∀ co : Cam.Order, Cam.cardTitle co = "Order #" ++ co.id.take 8) := by
  refine ⟨?_, ?_, fun co => rfl⟩
  · have hfind : jsFindIndex (fun x => x.id == o.id) (pre ++ o :: post)
        = (pre.length : Int) :=
      jsFindIndex_first _ pre post o hpre (by simp)
    simp [DetailPage.fetchOrderDetail, hA, hD, hfind]
  · have hget : (pre ++ o :: post)[pre.length]? = some o := by
      rw [List.getElem?_append_right (Nat.le_refl _)]
      simp
    simp [Snake.cardTitles, List.getElem?_enum, hget]

/-- Claim C6 witness: a two-order list where the sample order sits at
index 1, so its sequential number is 2 - 1 = 1. -/
theorem c6_witness :
    jsOk 200 = true ∧
    (∀ x ∈ [sampleOrder2], (x.id == sampleOrder.id) = false) ∧
    ((DetailPage.fetchOrderDetail sampleOrder.id
        (.reply 200 ⟨some ([sampleOrder2] ++ sampleOrder :: [])⟩)
        (.reply 200 ⟨sampleOrder⟩)).setOrderNumber
      = some ((([sampleOrder2] ++ sampleOrder :: []).length : Int)
          - [sampleOrder2].length) ∧
     (Snake.cardTitles
        ([sampleOrder2] ++ sampleOrder :: []))[[sampleOrder2].length]?
      = some ("Order #"
          ++ toString (([sampleOrder2] ++ sampleOrder :: []).length
              - [sampleOrder2].length)) ∧
     (∀ co : Cam.Order, Cam.cardTitle co = "Order #" ++ co.id.take 8)) :=
  ⟨by decide, by decide,
   c6_sequential_order_number [sampleOrder2] [] sampleOrder sampleOrder
     200 200 (by decide) (by decide) (by decide)⟩
